import Mathlib

/-!
Verification development for the `storageclass-restrict` tooling: two small Go
command-line programs that patch Kubernetes ResourceQuota objects per storage
class.  One binary (migrate variant, `main.go`) supports a `migrate` mode
(copy the bare `requests.storage` quota onto the old storage class and zero the
new one) and a `set-zero` mode (initialise a storage class quota to "0"); the
other binary (restrict variant) supports `add` / `remove` of a per-storage-class
hard cap.

The embedding below models a ResourceQuota's `spec.hard` section as an
association list from resource-key strings to canonical quantity strings, a
strategic-merge patch body as a list of key / value-or-null pairs, the network
patch call as an oracle that either succeeds or yields an error string, and the
two programs' control flow (flag validation, fatal exits, per-object loops,
error aggregation) as total Lean functions.
-/

set_option autoImplicit false

namespace SCRestrict

/-- The `spec.hard` section of a ResourceQuota: resource key to quantity value
(quantity values are kept in the canonical string form that
`resource.Quantity.String()` produces). -/
abbrev HardMap := List (String × String)

/-- One ResourceQuota object, identified by namespace and name. -/
structure ResourceQuota where
  ns : String
  name : String
  hard : HardMap
  deriving Repr, DecidableEq

/-- A strategic-merge patch body restricted to `spec.hard`: each named key is
either set to a value (`some v`) or removed (`none`, the JSON `null` marker). -/
abbrev PatchDoc := List (String × Option String)

/-- Per-object result of one loop iteration, as the spec classifies it. -/
inductive PatchOutcome where
  | Applied
  | Skipped (reason : String)
  | Failed (err : String)
  deriving Repr, DecidableEq

/-- A record of one Patch request issued against the cluster. -/
structure PatchCall where
  ns : String
  name : String
  fieldManager : String
  doc : PatchDoc
  deriving Repr, DecidableEq

/-- Look a key up in a hard map (first match, as a JSON object has unique
keys). -/
def lookupHard : HardMap → String → Option String
  | [], _ => none
  | (k, v) :: rest, key => if k = key then some v else lookupHard rest key

/-- Set a key in a hard map: replace the first binding in place, or append the
binding if the key is absent (merge-patch `set` semantics). -/
def setKey : HardMap → String → String → HardMap
  | [], key, val => [(key, val)]
  | (k, v) :: rest, key, val =>
    if k = key then (k, val) :: rest else (k, v) :: setKey rest key val

/-- Remove a key from a hard map (merge-patch `null` semantics). -/
def removeKey : HardMap → String → HardMap
  | [], _ => []
  | (k, v) :: rest, key =>
    if k = key then removeKey rest key else (k, v) :: removeKey rest key

/-- Apply a merge-patch body to a hard map: keys not mentioned are untouched,
a `some` value sets the key, a `none` value removes it. -/
def applyMergePatch (h : HardMap) (p : PatchDoc) : HardMap :=
  p.foldl
    (fun acc kv =>
      match kv.2 with
      | some v => setKey acc kv.1 v
      | none => removeKey acc kv.1)
    h

/-- Errors a single outcome contributes to `errorList`: only a Failed outcome
appends its error. -/
def outcomeErrs : PatchOutcome → List String
  | .Failed err => [err]
  | _ => []

/-- The storage-class-scoped resource key
`<sc>.storageclass.storage.k8s.io/requests.storage`, as every patch template
in both binaries builds it by string formatting. -/
def scKey (sc : String) : String :=
  sc ++ ".storageclass.storage.k8s.io/requests.storage"

/-- Embeds `patchMigrateTemplate` of the migrate binary after
`fmt.Sprintf(patchMigrateTemplate, oldStorageclass, quotaSize, newStorageclass)`:
the JSON body `spec.hard` maps the old storage class key to the existing quota
and the new storage class key to "0". -/
def patchMigrateTemplate (oldSc quotaSize newSc : String) : PatchDoc :=
  [(scKey oldSc, some quotaSize), (scKey newSc, some "0")]

/-- Embeds `patchSetZeroTemplate` after `fmt.Sprintf(patchSetZeroTemplate, sc)`:
`spec.hard` maps the storage class key to "0". -/
def patchSetZeroTemplate (sc : String) : PatchDoc :=
  [(scKey sc, some "0")]

/-- Embeds `patchAddTemplate` of the restrict binary after
`fmt.Sprintf(patchAddTemplate, sc, size)`. -/
def patchAddTemplate (sc size : String) : PatchDoc :=
  [(scKey sc, some size)]

/-- Embeds `patchDeleteTemplate` of the restrict binary: the key is set to the
JSON `null` marker, which removes it under merge-patch semantics. -/
def patchDeleteTemplate (sc : String) : PatchDoc :=
  [(scKey sc, none)]

/-- Embeds `(*Config).getExistingStorageQuota`: read the bare
`requests.storage` key of `rq.Spec.Hard`, returning its string form, or ""
when the key is absent. -/
def getExistingStorageQuota (rq : ResourceQuota) : String :=
  match lookupHard rq.hard "requests.storage" with
  | some quota => quota
  | none => ""

/-- The cluster-side behaviour of one Patch request: `none` means the request
succeeded, `some err` means the API call returned error `err`.  On success the
cluster applies the merge patch; on failure the object is untouched. -/
abbrev Applier := ResourceQuota → PatchDoc → Option String

/-- What one iteration of a per-object loop produced: the outcome, the errors
appended to `errorList`, the object's state after the iteration, and the Patch
requests issued. -/
structure StepResult where
  outcome : PatchOutcome
  errs : List String
  rq : ResourceQuota
  calls : List PatchCall
  deriving Repr, DecidableEq

/-- Embeds one iteration of the loop in `(*Config).MigrateStorageclassQuota`
(migrate binary): read the existing `requests.storage` quota; if it is "",
log a warning and `continue` (no patch); otherwise issue a strategic-merge
patch built from `patchMigrateTemplate` with field manager
"storageclass-migration", recording the error and continuing on failure. -/
def migrateObject (oldSc newSc : String) (applier : Applier)
    (rq : ResourceQuota) : StepResult :=
  let quotaSize := getExistingStorageQuota rq
  if quotaSize = "" then
    ⟨.Skipped "no existing quota", [], rq, []⟩
  else
    let doc := patchMigrateTemplate oldSc quotaSize newSc
    let call : PatchCall := ⟨rq.ns, rq.name, "storageclass-migration", doc⟩
    match applier rq doc with
    | some err => ⟨.Failed err, [err], rq, [call]⟩
    | none => ⟨.Applied, [], { rq with hard := applyMergePatch rq.hard doc }, [call]⟩

/-- The patch-issuing tail of one `SetStorageclassQuotaToZero` iteration:
issue `patchSetZeroTemplate` with field manager "storageclass-quota-zero". -/
def setZeroPatchStep (sc : String) (applier : Applier)
    (rq : ResourceQuota) : StepResult :=
  let doc := patchSetZeroTemplate sc
  let call : PatchCall := ⟨rq.ns, rq.name, "storageclass-quota-zero", doc⟩
  match applier rq doc with
  | some err => ⟨.Failed err, [err], rq, [call]⟩
  | none => ⟨.Applied, [], { rq with hard := applyMergePatch rq.hard doc }, [call]⟩

/-- Embeds one iteration of the loop in `(*Config).SetStorageclassQuotaToZero`
(migrate binary): if the storage-class key already exists with value "0",
`continue` without a patch; otherwise patch the key to "0". -/
def setZeroObject (sc : String) (applier : Applier)
    (rq : ResourceQuota) : StepResult :=
  match lookupHard rq.hard (scKey sc) with
  | some existingQuota =>
    if existingQuota = "0" then ⟨.Skipped "already zero", [], rq, []⟩
    else setZeroPatchStep sc applier rq
  | none => setZeroPatchStep sc applier rq

/-- Embeds the `switch c.action` that chooses the patch body in one iteration
of `(*Config).PatchStorageclassRestricted` (restrict binary); the `default`
case leaves `patchData` nil. -/
def restrictPatchData (action sc size : String) : PatchDoc :=
  match action with
  | "add" => patchAddTemplate sc size
  | "remove" => patchDeleteTemplate sc
  | _ => []

/-- Embeds one iteration of the loop in `(*Config).PatchStorageclassRestricted`
(restrict binary): always issue the chosen patch with field manager
"storageclass-restriction" (there is no skip case), recording the error and
continuing on failure. -/
def restrictObject (action sc size : String) (applier : Applier)
    (rq : ResourceQuota) : StepResult :=
  let doc := restrictPatchData action sc size
  let call : PatchCall := ⟨rq.ns, rq.name, "storageclass-restriction", doc⟩
  match applier rq doc with
  | some err => ⟨.Failed err, [err], rq, [call]⟩
  | none => ⟨.Applied, [], { rq with hard := applyMergePatch rq.hard doc }, [call]⟩

/-- Accumulated result of a whole per-object loop: outcomes and final states
in scope-listing order, the `errorList` in append order, and every Patch
request issued. -/
structure BatchResult where
  outcomes : List PatchOutcome
  errorList : List String
  rqs : List ResourceQuota
  calls : List PatchCall
  deriving Repr, DecidableEq

/-- The shared `for _, rq := range rqs.Items` shape of all three loops: run
`step` on each object in listing order, collecting outcomes, errors, states
and calls.  A failed step only appends to `errorList` (the Go `continue`);
it never stops the iteration. -/
def runBatch (step : ResourceQuota → StepResult) :
    List ResourceQuota → BatchResult
  | [] => ⟨[], [], [], []⟩
  | rq :: rest =>
    let s := step rq
    let r := runBatch step rest
    ⟨s.outcome :: r.outcomes, s.errs ++ r.errorList, s.rq :: r.rqs,
      s.calls ++ r.calls⟩

/-- Embeds `utilerrors.NewAggregate`: nil for an empty error list, otherwise
an aggregate holding exactly the collected errors in order. -/
def NewAggregate (errs : List String) : Option (List String) :=
  if errs = [] then none else some errs

/-- Result of the initial `ResourceQuotas(namespace).List` call: either the
call itself errored, or it returned a (possibly empty) item list. -/
inductive ListResult where
  | listError (err : String)
  | items (rqs : List ResourceQuota)
  deriving Repr, DecidableEq

/-- Embeds `(*Config).MigrateStorageclassQuota` (migrate binary): return the
List error as-is; on an empty item list return the
`no ResourceQuota found in namespace/...` error; otherwise run the per-object
loop and return the batch trace together with `NewAggregate(errorList)`
(the function's Go return value). -/
def MigrateStorageclassQuota (oldSc newSc ns : String) (applier : Applier)
    (listed : ListResult) : Except String (BatchResult × Option (List String)) :=
  match listed with
  | .listError err => .error err
  | .items rqs =>
    if rqs = [] then .error ("no ResourceQuota found in namespace/" ++ ns)
    else
      let b := runBatch (migrateObject oldSc newSc applier) rqs
      .ok (b, NewAggregate b.errorList)

/-- Embeds `(*Config).SetStorageclassQuotaToZero` (migrate binary), with the
same List / empty-scope handling as the migrate loop. -/
def SetStorageclassQuotaToZero (sc ns : String) (applier : Applier)
    (listed : ListResult) : Except String (BatchResult × Option (List String)) :=
  match listed with
  | .listError err => .error err
  | .items rqs =>
    if rqs = [] then .error ("no ResourceQuota found in namespace/" ++ ns)
    else
      let b := runBatch (setZeroObject sc applier) rqs
      .ok (b, NewAggregate b.errorList)

/-- Embeds `(*Config).PatchStorageclassRestricted` (restrict binary), with the
same List / empty-scope handling. -/
def PatchStorageclassRestricted (action sc size ns : String) (applier : Applier)
    (listed : ListResult) : Except String (BatchResult × Option (List String)) :=
  match listed with
  | .listError err => .error err
  | .items rqs =>
    if rqs = [] then .error ("no ResourceQuota found in namespace/" ++ ns)
    else
      let b := runBatch (restrictObject action sc size applier) rqs
      .ok (b, NewAggregate b.errorList)

/-- Result of a `StorageClasses().Get` call, as `CheckIfStorageclassExist`
distinguishes the cases: the class exists, the API said NotFound, or the call
failed with another error. -/
inductive GetResult where
  | found
  | notFound
  | getError (msg : String)
  deriving Repr, DecidableEq

/-- Command-line flags of the migrate binary (`main.go`), after pflag parsing;
`mode` defaults to "migrate". -/
structure MigrateFlags where
  oldStorageclass : String
  newStorageclass : String
  ns : String
  mode : String
  deriving Repr, DecidableEq

/-- Environment of the migrate binary: outcomes of the external calls it can
make, in program order. -/
structure MigrateEnv where
  buildConfigErr : Option String
  newClientErr : Option String
  scGet : String → GetResult
  listed : ListResult
  applier : Applier

/-- Embeds the `switch config.mode` validation block of `NewConfig`
(migrate binary): the first failing check is the fatal message. -/
def validateModeFlags (mode oldSc newSc : String) : Option String :=
  if mode = "migrate" then
    if oldSc = "" then
      some "migrate mode requires old-storageclass, please specify with -o"
    else if newSc = "" then
      some "migrate mode requires new-storageclass, please specify with -s"
    else if oldSc = newSc then
      some "old-storageclass and new-storageclass cannot be the same"
    else none
  else if mode = "set-zero" then
    if newSc = "" then
      some "set-zero mode requires storageclass, please specify with -s"
    else none
  else some ("invalid mode: " ++ mode ++ ", must be 'migrate' or 'set-zero'")

/-- Embeds `(*Config).CheckIfStorageclassExist` of the migrate binary: in
migrate mode first the old class is looked up, then (in every mode) the
new/target class; NotFound and other errors are both fatal. -/
def checkStorageclassesMigrate (mode oldSc newSc : String)
    (scGet : String → GetResult) : Option String :=
  match
    (if mode = "migrate" then
      match scGet oldSc with
      | .found => none
      | .notFound => some ("old storageclass " ++ oldSc ++ " does not exist")
      | .getError msg =>
        some ("error happened when getting old storageclass " ++ oldSc ++
          ", error: " ++ msg)
    else none)
  with
  | some fatal => some fatal
  | none =>
    match scGet newSc with
    | .found => none
    | .notFound => some ("storageclass " ++ newSc ++ " does not exist")
    | .getError msg =>
      some ("error happened when getting storageclass " ++ newSc ++
        ", error: " ++ msg)

/-- Embeds `NewConfig` of the migrate binary after pflag parsing: namespace
defaulting, mode/flag validation, client construction, storage-class existence
check.  A `klog.Exit*` call is modelled as returning the fatal message. -/
def migrateNewConfig (f : MigrateFlags) (env : MigrateEnv) :
    Except String MigrateFlags :=
  let f := if f.ns = "" then { f with ns := "" } else f
  match validateModeFlags f.mode f.oldStorageclass f.newStorageclass with
  | some fatal => .error fatal
  | none =>
    match env.buildConfigErr with
    | some err => .error ("error happened when building config," ++ err)
    | none =>
      match env.newClientErr with
      | some err =>
        .error ("error happened when construct kubernetes client," ++ err)
      | none =>
        match
          checkStorageclassesMigrate f.mode f.oldStorageclass
            f.newStorageclass env.scGet
        with
        | some fatal => .error fatal
        | none => .ok f

/-- Observable result of one whole process run: the exit code (klog.Exit uses
255; a normal return from `main` exits 0), the fatal message if any, the
aggregate the run reported, and every Patch request issued. -/
structure ProgramResult where
  exitCode : Nat
  fatal : Option String
  aggregate : Option (List String)
  calls : List PatchCall
  deriving Repr, DecidableEq

/-- Embeds `main` of the migrate binary: build the config (fatal exits with
klog.Exit), dispatch on mode, collect the run's error into `errorList`, and
either print the success message or log the aggregated error — in both cases
returning normally (exit code 0). -/
def migrateMain (f : MigrateFlags) (env : MigrateEnv) : ProgramResult :=
  match migrateNewConfig f env with
  | .error fatal => ⟨255, some fatal, none, []⟩
  | .ok cfg =>
    if cfg.mode = "migrate" then
      match
        MigrateStorageclassQuota cfg.oldStorageclass cfg.newStorageclass
          cfg.ns env.applier env.listed
      with
      | .error err => ⟨0, none, some [err], []⟩
      | .ok (b, agg) => ⟨0, none, agg, b.calls⟩
    else if cfg.mode = "set-zero" then
      match
        SetStorageclassQuotaToZero cfg.newStorageclass cfg.ns env.applier
          env.listed
      with
      | .error err => ⟨0, none, some [err], []⟩
      | .ok (b, agg) => ⟨0, none, agg, b.calls⟩
    else ⟨255, some ("invalid mode: " ++ cfg.mode), none, []⟩

/-- Command-line flags of the restrict binary, after pflag parsing; `action`
defaults to "add" and `size` to "0". -/
structure RestrictFlags where
  storageclass : String
  action : String
  ns : String
  size : String
  deriving Repr, DecidableEq

/-- Environment of the restrict binary.  `parseQuantity` models
`resource.ParseQuantity` followed by `q.String()`: `.ok canonical` on
success, `.error msg` on a parse error. -/
structure RestrictEnv where
  parseQuantity : String → Except String String
  buildConfigErr : Option String
  newClientErr : Option String
  scGet : String → GetResult
  listed : ListResult
  applier : Applier

/-- Embeds `NewConfig` of the restrict binary after pflag parsing: namespace
defaulting, empty storage-class check, `ParseSize` (which canonicalizes
`c.size` in place), action validation, client construction and the
storage-class existence check, each fatal via `klog.Exit*`. -/
def restrictNewConfig (f : RestrictFlags) (env : RestrictEnv) :
    Except String RestrictFlags :=
  let f := if f.ns = "" then { f with ns := "" } else f
  if f.storageclass = "" then
    .error "storageclass is empty,please specify storageclass"
  else
    match env.parseQuantity f.size with
    | .error err => .error (err ++ " , for example: 50G / 200T")
    | .ok canonical =>
      let f := { f with size := canonical }
      if f.action ≠ "add" ∧ f.action ≠ "remove" then
        .error ("action must be add or remove,and you provide " ++ f.action)
      else
        match env.buildConfigErr with
        | some err => .error ("error happened when building config," ++ err)
        | none =>
          match env.newClientErr with
          | some err =>
            .error ("error happened when construct kubernetes client," ++ err)
          | none =>
            match env.scGet f.storageclass with
            | .found => .ok f
            | .notFound =>
              .error ("storageclass " ++ f.storageclass ++ " not exist")
            | .getError msg =>
              .error ("error happened when get storageclass " ++
                f.storageclass ++ ",error: " ++ msg)

/-- Embeds `main` of the restrict binary: build the config (fatal exits), run
`PatchStorageclassRestricted`, collect its error into `errorList`, and return
normally whether or not the aggregate is nil. -/
def restrictMain (f : RestrictFlags) (env : RestrictEnv) : ProgramResult :=
  match restrictNewConfig f env with
  | .error fatal => ⟨255, some fatal, none, []⟩
  | .ok cfg =>
    match
      PatchStorageclassRestricted cfg.action cfg.storageclass cfg.size cfg.ns
        env.applier env.listed
    with
    | .error err => ⟨0, none, some [err], []⟩
    | .ok (b, agg) => ⟨0, none, agg, b.calls⟩

/-- A three-object scope used for the concrete partial-failure scenario of the
spec: each object carries an existing bare `requests.storage` quota. -/
def threeRqs : List ResourceQuota :=
  [⟨"ns1", "quota1", [("requests.storage", "1G")]⟩,
   ⟨"ns2", "quota2", [("requests.storage", "2G")]⟩,
   ⟨"ns3", "quota3", [("requests.storage", "3G")]⟩]

/-- An applier whose Patch request fails exactly for the object living in
namespace "ns2". -/
def failNs2 : Applier := fun rq _ =>
  if rq.ns = "ns2" then some "patch to ns2/quota2 failed" else none

/-- An applier whose every Patch request succeeds. -/
def noFailApplier : Applier := fun _ _ => none

@[simp] theorem lookupHard_nil (key : String) : lookupHard [] key = none := rfl

@[simp] theorem lookupHard_cons (k v key : String) (rest : HardMap) :
    lookupHard ((k, v) :: rest) key =
      if k = key then some v else lookupHard rest key := rfl

theorem lookupHard_setKey_self (h : HardMap) (key val : String) :
    lookupHard (setKey h key val) key = some val := by
  induction h with
  | nil => simp [setKey]
  | cons kv rest ih =>
    obtain ⟨k, v⟩ := kv
    by_cases hk : k = key
    · simp [setKey, hk]
    · simp [setKey, hk, ih]

theorem lookupHard_setKey_other (h : HardMap) (key val other : String)
    (hne : key ≠ other) :
    lookupHard (setKey h key val) other = lookupHard h other := by
  induction h with
  | nil => simp [setKey, hne]
  | cons kv rest ih =>
    obtain ⟨k, v⟩ := kv
    by_cases hk : k = key
    · subst hk
      simp [setKey, hne]
    · simp [setKey, hk, ih]

theorem lookupHard_removeKey_self (h : HardMap) (key : String) :
    lookupHard (removeKey h key) key = none := by
  induction h with
  | nil => simp [removeKey]
  | cons kv rest ih =>
    obtain ⟨k, v⟩ := kv
    by_cases hk : k = key
    · simpa [removeKey, hk] using ih
    · simpa [removeKey, hk] using ih

theorem lookupHard_removeKey_other (h : HardMap) (key other : String)
    (hne : key ≠ other) :
    lookupHard (removeKey h key) other = lookupHard h other := by
  induction h with
  | nil => simp [removeKey]
  | cons kv rest ih =>
    obtain ⟨k, v⟩ := kv
    by_cases hk : k = key
    · have hko : k ≠ other := by rw [hk]; exact hne
      simp [removeKey, hk, hko, hne, ih]
    · by_cases ho : k = other
      · have hok : other ≠ key := by rw [← ho]; exact hk
        simp [removeKey, hok, ho]
      · simp [removeKey, hk, ho, ih]

theorem setKey_of_lookup_eq (h : HardMap) (key val : String)
    (hl : lookupHard h key = some val) : setKey h key val = h := by
  induction h with
  | nil => simp [lookupHard] at hl
  | cons kv rest ih =>
    obtain ⟨k, v⟩ := kv
    by_cases hk : k = key
    · subst hk
      simp [lookupHard] at hl
      simp [setKey, hl]
    · simp [lookupHard, hk] at hl
      simp [setKey, hk, ih hl]

theorem lookupHard_mem (h : HardMap) (key val : String)
    (hl : lookupHard h key = some val) : (key, val) ∈ h := by
  induction h with
  | nil => simp [lookupHard] at hl
  | cons kv rest ih =>
    obtain ⟨k, v⟩ := kv
    by_cases hk : k = key
    · subst hk
      simp [lookupHard] at hl
      subst hl
      exact List.mem_cons_self _ _
    · simp [lookupHard, hk] at hl
      exact List.mem_cons_of_mem _ (ih hl)

theorem scKey_length (sc : String) : (scKey sc).length = sc.length + 45 := by
  rw [scKey, String.length_append]
  have h45 : (".storageclass.storage.k8s.io/requests.storage" : String).length
      = 45 := by decide
  omega

/-- A storage-class-scoped key is never the bare `requests.storage` key. -/
theorem scKey_ne_bare (sc : String) : scKey sc ≠ "requests.storage" := by
  intro h
  have hl := scKey_length sc
  rw [h] at hl
  have h16 : ("requests.storage" : String).length = 16 := by decide
  omega

/-- Distinct storage-class names give distinct scoped keys. -/
theorem scKey_injective (a b : String) (h : scKey a = scKey b) : a = b := by
  apply String.ext
  have hd : a.data ++ (".storageclass.storage.k8s.io/requests.storage" : String).data
      = b.data ++ (".storageclass.storage.k8s.io/requests.storage" : String).data := by
    rw [← String.data_append, ← String.data_append]
    exact congrArg String.data h
  exact List.append_cancel_right hd

theorem runBatch_outcomes (step : ResourceQuota → StepResult)
    (rqs : List ResourceQuota) :
    (runBatch step rqs).outcomes = rqs.map (fun rq => (step rq).outcome) := by
  induction rqs with
  | nil => rfl
  | cons rq rest ih => simp [runBatch, ih]

theorem runBatch_rqs (step : ResourceQuota → StepResult)
    (rqs : List ResourceQuota) :
    (runBatch step rqs).rqs = rqs.map (fun rq => (step rq).rq) := by
  induction rqs with
  | nil => rfl
  | cons rq rest ih => simp [runBatch, ih]

theorem runBatch_errorList (step : ResourceQuota → StepResult)
    (hlink : ∀ rq, (step rq).errs = outcomeErrs (step rq).outcome)
    (rqs : List ResourceQuota) :
    (runBatch step rqs).errorList =
      ((runBatch step rqs).outcomes.map outcomeErrs).flatten := by
  induction rqs with
  | nil => rfl
  | cons rq rest ih => simp [runBatch, hlink rq, ih]

theorem outcomeErrs_eq_nil_iff (o : PatchOutcome) :
    outcomeErrs o = [] ↔ ∀ e, o ≠ .Failed e := by
  cases o <;> simp [outcomeErrs]

theorem runBatch_errorList_nil_iff (step : ResourceQuota → StepResult)
    (hlink : ∀ rq, (step rq).errs = outcomeErrs (step rq).outcome)
    (rqs : List ResourceQuota) :
    (runBatch step rqs).errorList = [] ↔
      ∀ e, PatchOutcome.Failed e ∉ (runBatch step rqs).outcomes := by
  rw [runBatch_errorList step hlink rqs]
  constructor
  · intro hnil e hmem
    have := List.flatten_eq_nil_iff.mp hnil
    have hoe : outcomeErrs (.Failed e) = [] :=
      this _ (List.mem_map_of_mem outcomeErrs hmem)
    simp [outcomeErrs] at hoe
  · intro hno
    apply List.flatten_eq_nil_iff.mpr
    intro l hl
    rcases List.mem_map.mp hl with ⟨o, ho, rfl⟩
    rcases o with _ | r | e
    · rfl
    · rfl
    · exact absurd ho (hno e)

theorem migrateObject_errs_link (oldSc newSc : String) (applier : Applier)
    (rq : ResourceQuota) :
    (migrateObject oldSc newSc applier rq).errs =
      outcomeErrs (migrateObject oldSc newSc applier rq).outcome := by
  rw [migrateObject]
  by_cases hq : getExistingStorageQuota rq = ""
  · simp [hq, outcomeErrs]
  · simp only [hq, if_false]
    cases applier rq (patchMigrateTemplate oldSc (getExistingStorageQuota rq) newSc) <;>
      simp [outcomeErrs]

theorem setZeroPatchStep_errs_link (sc : String) (applier : Applier)
    (rq : ResourceQuota) :
    (setZeroPatchStep sc applier rq).errs =
      outcomeErrs (setZeroPatchStep sc applier rq).outcome := by
  rw [setZeroPatchStep]
  cases applier rq (patchSetZeroTemplate sc) <;> simp [outcomeErrs]

theorem setZeroObject_errs_link (sc : String) (applier : Applier)
    (rq : ResourceQuota) :
    (setZeroObject sc applier rq).errs =
      outcomeErrs (setZeroObject sc applier rq).outcome := by
  rw [setZeroObject]
  cases hq : lookupHard rq.hard (scKey sc) with
  | none => exact setZeroPatchStep_errs_link sc applier rq
  | some q =>
    by_cases h0 : q = "0"
    · simp [h0, outcomeErrs]
    · simp only [h0, if_false]
      exact setZeroPatchStep_errs_link sc applier rq

theorem restrictObject_errs_link (action sc size : String) (applier : Applier)
    (rq : ResourceQuota) :
    (restrictObject action sc size applier rq).errs =
      outcomeErrs (restrictObject action sc size applier rq).outcome := by
  rw [restrictObject]
  cases applier rq (restrictPatchData action sc size) <;> simp [outcomeErrs]

theorem NewAggregate_ne_none_iff (errs : List String) :
    NewAggregate errs ≠ none ↔ errs ≠ [] := by
  by_cases h : errs = [] <;> simp [NewAggregate, h]

/-- C1: for every resource-quota object in scope, the Migrate intent reads the
object's bare `requests.storage` key as it was before any mutation of that
object: if the key is absent the outcome is Skipped "no existing quota" with
no patch request issued; if the key is present with value v, the single patch
request's body sets exactly the two storage-class-scoped keys (old to v, new
to "0"), never mentions the bare `requests.storage` key, and so leaves that
key's value untouched by the merge patch.  (Hard-map values are canonical
`Quantity.String()` forms, hence never the empty string.) -/
theorem C1_migrate_reads_unmutated_generic_key
    (oldSc newSc : String) (applier : Applier) (rq : ResourceQuota)
    (hwf : ∀ kv ∈ rq.hard, kv.2 ≠ "") :
    (lookupHard rq.hard "requests.storage" = none →
      migrateObject oldSc newSc applier rq =
        ⟨.Skipped "no existing quota", [], rq, []⟩) ∧
    (∀ v, lookupHard rq.hard "requests.storage" = some v →
      (migrateObject oldSc newSc applier rq).calls =
        [⟨rq.ns, rq.name, "storageclass-migration",
          [(scKey oldSc, some v), (scKey newSc, some "0")]⟩] ∧
      (∀ kv ∈ patchMigrateTemplate oldSc v newSc, kv.1 ≠ "requests.storage") ∧
      lookupHard (applyMergePatch rq.hard (patchMigrateTemplate oldSc v newSc))
          "requests.storage" = some v) := by
  constructor
  · intro hnone
    have hq : getExistingStorageQuota rq = "" := by
      rw [getExistingStorageQuota, hnone]
    rw [migrateObject]
    simp [hq]
  · intro v hv
    have hq : getExistingStorageQuota rq = v := by
      rw [getExistingStorageQuota, hv]
    have hvne : v ≠ "" := hwf ("requests.storage", v) (lookupHard_mem _ _ _ hv)
    refine ⟨?_, ?_, ?_⟩
    · rw [migrateObject]
      simp only [hq, hvne, if_false]
      cases applier rq (patchMigrateTemplate oldSc v newSc) <;>
        simp [patchMigrateTemplate]
    · intro kv hkv
      rw [patchMigrateTemplate] at hkv
      simp only [List.mem_cons, List.not_mem_nil, or_false] at hkv
      rcases hkv with rfl | rfl
      · exact scKey_ne_bare oldSc
      · exact scKey_ne_bare newSc
    · have hunfold :
          applyMergePatch rq.hard (patchMigrateTemplate oldSc v newSc) =
            setKey (setKey rq.hard (scKey oldSc) v) (scKey newSc) "0" := rfl
      rw [hunfold,
        lookupHard_setKey_other _ _ _ _ (scKey_ne_bare newSc),
        lookupHard_setKey_other _ _ _ _ (scKey_ne_bare oldSc)]
      exact hv

theorem C1_migrate_reads_unmutated_generic_key_witness :
    (migrateObject "sc-old" "sc-new" (fun _ _ => none)
        ⟨"ns1", "quota1", [("requests.storage", "50G")]⟩).calls =
      [⟨"ns1", "quota1", "storageclass-migration",
        [(scKey "sc-old", some "50G"), (scKey "sc-new", some "0")]⟩] ∧
    lookupHard
        (applyMergePatch [("requests.storage", "50G")]
          (patchMigrateTemplate "sc-old" "50G" "sc-new"))
        "requests.storage" = some "50G" := by
  have h :=
    (C1_migrate_reads_unmutated_generic_key "sc-old" "sc-new" (fun _ _ => none)
        ⟨"ns1", "quota1", [("requests.storage", "50G")]⟩ (by decide)).2
      "50G" (by decide)
  exact ⟨h.1, h.2.2⟩


/-- C2: a failed patch request never aborts the batch: in both per-object
loops every object is still processed in scope-listing order (the outcome
list is the map of the per-object step over the listed objects, one outcome
per object), and `errorList` — from which the aggregate is built — collects
exactly the errors of the Failed outcomes in order.  Concretely, with three
objects where only the second Patch call fails, the outcomes are
Applied, Failed, Applied and the aggregate names only the second object. -/
theorem C2_partial_failure_isolation
    (oldSc newSc action sc size : String) (applier : Applier)
    (rqs : List ResourceQuota) :
    ((runBatch (migrateObject oldSc newSc applier) rqs).outcomes =
        rqs.map (fun rq => (migrateObject oldSc newSc applier rq).outcome) ∧
      (runBatch (migrateObject oldSc newSc applier) rqs).errorList =
        ((runBatch (migrateObject oldSc newSc applier) rqs).outcomes.map
          outcomeErrs).flatten) ∧
    ((runBatch (restrictObject action sc size applier) rqs).outcomes =
        rqs.map (fun rq => (restrictObject action sc size applier rq).outcome) ∧
      (runBatch (restrictObject action sc size applier) rqs).errorList =
        ((runBatch (restrictObject action sc size applier) rqs).outcomes.map
          outcomeErrs).flatten) ∧
    (runBatch (migrateObject "sc-a" "sc-b" failNs2) threeRqs).outcomes =
      [.Applied, .Failed "patch to ns2/quota2 failed", .Applied] ∧
    NewAggregate
        (runBatch (migrateObject "sc-a" "sc-b" failNs2) threeRqs).errorList =
      some ["patch to ns2/quota2 failed"] := by
  refine ⟨⟨?_, ?_⟩, ⟨?_, ?_⟩, ?_, ?_⟩
  · exact runBatch_outcomes _ rqs
  · exact runBatch_errorList _ (migrateObject_errs_link oldSc newSc applier) rqs
  · exact runBatch_outcomes _ rqs
  · exact runBatch_errorList _ (restrictObject_errs_link action sc size applier) rqs
  · decide
  · decide


/-- C3: applying the ZeroInit intent twice in a row to one object (whose
storage-class key is not already "0" and whose patch request succeeds) gives
Applied on the first run and Skipped "already zero" on the second — the skip
test being that the key exists with canonical value "0" — and after either run
the object's value for that key is "0". -/
theorem C3_setzero_twice_applied_then_skipped (sc : String) (applier : Applier)
    (rq : ResourceQuota)
    (hap : ∀ q d, applier q d = none)
    (hnz : lookupHard rq.hard (scKey sc) ≠ some "0") :
    (setZeroObject sc applier rq).outcome = .Applied ∧
    lookupHard (setZeroObject sc applier rq).rq.hard (scKey sc) = some "0" ∧
    setZeroObject sc applier (setZeroObject sc applier rq).rq =
      ⟨.Skipped "already zero", [], (setZeroObject sc applier rq).rq, []⟩ ∧
    lookupHard (setZeroObject sc applier
        (setZeroObject sc applier rq).rq).rq.hard (scKey sc) = some "0" := by
  have hps : setZeroPatchStep sc applier rq =
      ⟨.Applied, [], { rq with hard := setKey rq.hard (scKey sc) "0" },
        [⟨rq.ns, rq.name, "storageclass-quota-zero", patchSetZeroTemplate sc⟩]⟩ := by
    rw [setZeroPatchStep, hap]
    rfl
  have hstep : setZeroObject sc applier rq =
      ⟨.Applied, [], { rq with hard := setKey rq.hard (scKey sc) "0" },
        [⟨rq.ns, rq.name, "storageclass-quota-zero", patchSetZeroTemplate sc⟩]⟩ := by
    rw [setZeroObject]
    cases hq : lookupHard rq.hard (scKey sc) with
    | none => exact hps
    | some q =>
      have hq0 : q ≠ "0" := by
        intro h
        exact hnz (by rw [hq, h])
      simp only [hq0, if_false, ite_false]
      exact hps
  have hl0 : lookupHard (setZeroObject sc applier rq).rq.hard (scKey sc) =
      some "0" := by
    rw [hstep]
    exact lookupHard_setKey_self rq.hard (scKey sc) "0"
  have hskip : setZeroObject sc applier (setZeroObject sc applier rq).rq =
      ⟨.Skipped "already zero", [], (setZeroObject sc applier rq).rq, []⟩ := by
    rw [setZeroObject, hl0]
    rfl
  refine ⟨by rw [hstep], hl0, hskip, ?_⟩
  rw [hskip]
  exact hl0

theorem C3_setzero_twice_applied_then_skipped_witness :
    (setZeroObject "sc-c" noFailApplier ⟨"ns1", "quota1", []⟩).outcome =
        .Applied ∧
    lookupHard (setZeroObject "sc-c" noFailApplier
        ⟨"ns1", "quota1", []⟩).rq.hard (scKey "sc-c") = some "0" ∧
    setZeroObject "sc-c" noFailApplier
        (setZeroObject "sc-c" noFailApplier ⟨"ns1", "quota1", []⟩).rq =
      ⟨.Skipped "already zero", [],
        (setZeroObject "sc-c" noFailApplier ⟨"ns1", "quota1", []⟩).rq, []⟩ ∧
    lookupHard (setZeroObject "sc-c" noFailApplier
        (setZeroObject "sc-c" noFailApplier
          ⟨"ns1", "quota1", []⟩).rq).rq.hard (scKey "sc-c") = some "0" :=
  C3_setzero_twice_applied_then_skipped "sc-c" noFailApplier
    ⟨"ns1", "quota1", []⟩ (fun _ _ => rfl) (by decide)

/-- C4: Restrict{sc, size} followed by Unrestrict{sc} (both patch requests
succeeding) applies both patches and leaves the storage-class key entirely
absent from the object's hard map — not present with value zero — because the
Unrestrict patch sets the key to the null marker, which removes it under
merge-patch semantics. -/
theorem C4_restrict_unrestrict_removes_key (sc size : String)
    (applier : Applier) (rq : ResourceQuota)
    (hap : ∀ q d, applier q d = none) :
    (restrictObject "add" sc size applier rq).outcome = .Applied ∧
    (restrictObject "remove" sc size applier
        (restrictObject "add" sc size applier rq).rq).outcome = .Applied ∧
    (restrictObject "remove" sc size applier
        (restrictObject "add" sc size applier rq).rq).calls =
      [⟨rq.ns, rq.name, "storageclass-restriction", [(scKey sc, none)]⟩] ∧
    lookupHard (restrictObject "remove" sc size applier
        (restrictObject "add" sc size applier rq).rq).rq.hard (scKey sc) =
      none := by
  have hadd : restrictObject "add" sc size applier rq =
      ⟨.Applied, [], { rq with hard := setKey rq.hard (scKey sc) size },
        [⟨rq.ns, rq.name, "storageclass-restriction",
          patchAddTemplate sc size⟩]⟩ := by
    rw [restrictObject, hap]
    rfl
  have hrem : restrictObject "remove" sc size applier
        (restrictObject "add" sc size applier rq).rq =
      ⟨.Applied, [],
        { (restrictObject "add" sc size applier rq).rq with
            hard := removeKey
              (restrictObject "add" sc size applier rq).rq.hard (scKey sc) },
        [⟨(restrictObject "add" sc size applier rq).rq.ns,
          (restrictObject "add" sc size applier rq).rq.name,
          "storageclass-restriction", patchDeleteTemplate sc⟩]⟩ := by
    rw [restrictObject, hap]
    rfl
  refine ⟨by rw [hadd], by rw [hrem], ?_, ?_⟩
  · rw [hrem, hadd]
    rfl
  · rw [hrem]
    exact lookupHard_removeKey_self _ (scKey sc)

theorem C4_restrict_unrestrict_removes_key_witness :
    (restrictObject "add" "sc-r" "50G" noFailApplier
        ⟨"ns1", "quota1", []⟩).outcome = .Applied ∧
    (restrictObject "remove" "sc-r" "50G" noFailApplier
        (restrictObject "add" "sc-r" "50G" noFailApplier
          ⟨"ns1", "quota1", []⟩).rq).outcome = .Applied ∧
    (restrictObject "remove" "sc-r" "50G" noFailApplier
        (restrictObject "add" "sc-r" "50G" noFailApplier
          ⟨"ns1", "quota1", []⟩).rq).calls =
      [⟨"ns1", "quota1", "storageclass-restriction", [(scKey "sc-r", none)]⟩] ∧
    lookupHard (restrictObject "remove" "sc-r" "50G" noFailApplier
        (restrictObject "add" "sc-r" "50G" noFailApplier
          ⟨"ns1", "quota1", []⟩).rq).rq.hard (scKey "sc-r") = none :=
  C4_restrict_unrestrict_removes_key "sc-r" "50G" noFailApplier
    ⟨"ns1", "quota1", []⟩ (fun _ _ => rfl)

theorem aggregate_iff_failed (step : ResourceQuota → StepResult)
    (hlink : ∀ rq, (step rq).errs = outcomeErrs (step rq).outcome)
    (rqs : List ResourceQuota) :
    NewAggregate (runBatch step rqs).errorList ≠ none ↔
      ∃ e, PatchOutcome.Failed e ∈ (runBatch step rqs).outcomes := by
  rw [NewAggregate_ne_none_iff]
  constructor
  · intro hne
    by_contra hno
    push_neg at hno
    exact hne ((runBatch_errorList_nil_iff step hlink rqs).mpr
      (fun e => hno e))
  · rintro ⟨e, he⟩ hnil
    exact (runBatch_errorList_nil_iff step hlink rqs).mp hnil e he

/-- C5: whenever a batch run reaches the per-object loop and returns its
result, the aggregate error is non-nil exactly when at least one object's
patch request failed; Skipped outcomes contribute nothing, so a run of only
Applied and Skipped outcomes returns nil.  Stated for all three loop-running
functions. -/
theorem C5_aggregate_nonnil_iff_some_failed
    (oldSc newSc zsc action sc size ns : String) (applier : Applier)
    (rqs : List ResourceQuota) (b : BatchResult) (agg : Option (List String)) :
    (MigrateStorageclassQuota oldSc newSc ns applier (.items rqs) =
        .ok (b, agg) →
      (agg ≠ none ↔ ∃ e, PatchOutcome.Failed e ∈ b.outcomes)) ∧
    (SetStorageclassQuotaToZero zsc ns applier (.items rqs) = .ok (b, agg) →
      (agg ≠ none ↔ ∃ e, PatchOutcome.Failed e ∈ b.outcomes)) ∧
    (PatchStorageclassRestricted action sc size ns applier (.items rqs) =
        .ok (b, agg) →
      (agg ≠ none ↔ ∃ e, PatchOutcome.Failed e ∈ b.outcomes)) := by
  refine ⟨?_, ?_, ?_⟩
  · intro heq
    rw [MigrateStorageclassQuota] at heq
    by_cases hrqs : rqs = []
    · rw [if_pos hrqs] at heq
      exact absurd heq (by simp)
    · rw [if_neg hrqs] at heq
      injection heq with hpair
      injection hpair with hb hagg
      rw [← hb, ← hagg]
      exact aggregate_iff_failed _ (migrateObject_errs_link oldSc newSc applier) rqs
  · intro heq
    rw [SetStorageclassQuotaToZero] at heq
    by_cases hrqs : rqs = []
    · rw [if_pos hrqs] at heq
      exact absurd heq (by simp)
    · rw [if_neg hrqs] at heq
      injection heq with hpair
      injection hpair with hb hagg
      rw [← hb, ← hagg]
      exact aggregate_iff_failed _ (setZeroObject_errs_link zsc applier) rqs
  · intro heq
    rw [PatchStorageclassRestricted] at heq
    by_cases hrqs : rqs = []
    · rw [if_pos hrqs] at heq
      exact absurd heq (by simp)
    · rw [if_neg hrqs] at heq
      injection heq with hpair
      injection hpair with hb hagg
      rw [← hb, ← hagg]
      exact aggregate_iff_failed _
        (restrictObject_errs_link action sc size applier) rqs

theorem C5_aggregate_nonnil_iff_some_failed_witness :
    (some ["boom"] : Option (List String)) ≠ none ↔
      ∃ e, PatchOutcome.Failed e ∈
        (⟨[.Failed "boom"], ["boom"],
          [⟨"ns1", "quota1", [("requests.storage", "1G")]⟩],
          [⟨"ns1", "quota1", "storageclass-migration",
            patchMigrateTemplate "sc-a" "1G" "sc-b"⟩]⟩ : BatchResult).outcomes :=
  (C5_aggregate_nonnil_iff_some_failed "sc-a" "sc-b" "sc-z" "add" "sc-r" "50G"
      "" (fun _ _ => some "boom")
      [⟨"ns1", "quota1", [("requests.storage", "1G")]⟩]
      ⟨[.Failed "boom"], ["boom"],
        [⟨"ns1", "quota1", [("requests.storage", "1G")]⟩],
        [⟨"ns1", "quota1", "storageclass-migration",
          patchMigrateTemplate "sc-a" "1G" "sc-b"⟩]⟩
      (some ["boom"])).1 (by rfl)

/-- C6: a scope that resolves to zero resource-quota objects makes every run
function fail with the fatal `no ResourceQuota found in namespace/...` error,
and in both whole-program runs no Patch request is issued to any object. -/
theorem C6_empty_scope_is_fatal_and_patchless
    (oldSc newSc zsc action sc size ns : String) (applier : Applier)
    (f : MigrateFlags) (g : RestrictFlags)
    (bce nce : Option String) (scGet : String → GetResult)
    (pq : String → Except String String) :
    MigrateStorageclassQuota oldSc newSc ns applier (.items []) =
      .error ("no ResourceQuota found in namespace/" ++ ns) ∧
    SetStorageclassQuotaToZero zsc ns applier (.items []) =
      .error ("no ResourceQuota found in namespace/" ++ ns) ∧
    PatchStorageclassRestricted action sc size ns applier (.items []) =
      .error ("no ResourceQuota found in namespace/" ++ ns) ∧
    (migrateMain f ⟨bce, nce, scGet, .items [], applier⟩).calls = [] ∧
    (restrictMain g ⟨pq, bce, nce, scGet, .items [], applier⟩).calls = [] := by
  have hmig : ∀ (o n ns' : String) (ap : Applier),
      MigrateStorageclassQuota o n ns' ap (.items []) =
        .error ("no ResourceQuota found in namespace/" ++ ns') :=
    fun _ _ _ _ => rfl
  have hsz : ∀ (z ns' : String) (ap : Applier),
      SetStorageclassQuotaToZero z ns' ap (.items []) =
        .error ("no ResourceQuota found in namespace/" ++ ns') :=
    fun _ _ _ => rfl
  have hre : ∀ (a s q ns' : String) (ap : Applier),
      PatchStorageclassRestricted a s q ns' ap (.items []) =
        .error ("no ResourceQuota found in namespace/" ++ ns') :=
    fun _ _ _ _ _ => rfl
  refine ⟨hmig _ _ _ _, hsz _ _ _, hre _ _ _ _ _, ?_, ?_⟩
  · rw [migrateMain]
    cases migrateNewConfig f ⟨bce, nce, scGet, .items [], applier⟩ with
    | error msg => rfl
    | ok cfg =>
      show (if cfg.mode = "migrate" then
          match MigrateStorageclassQuota cfg.oldStorageclass
              cfg.newStorageclass cfg.ns applier (.items []) with
          | .error err =>
            (⟨0, none, some [err], []⟩ : ProgramResult)
          | .ok (b, agg) => ⟨0, none, agg, b.calls⟩
        else if cfg.mode = "set-zero" then
          match SetStorageclassQuotaToZero cfg.newStorageclass cfg.ns applier
              (.items []) with
          | .error err => (⟨0, none, some [err], []⟩ : ProgramResult)
          | .ok (b, agg) => ⟨0, none, agg, b.calls⟩
        else ⟨255, some ("invalid mode: " ++ cfg.mode), none, []⟩).calls = []
      rw [hmig, hsz]
      split
      · rfl
      · split
        · rfl
        · rfl
  · rw [restrictMain]
    cases restrictNewConfig g ⟨pq, bce, nce, scGet, .items [], applier⟩ with
    | error msg => rfl
    | ok cfg =>
      show (match PatchStorageclassRestricted cfg.action cfg.storageclass
          cfg.size cfg.ns applier (.items []) with
        | .error err => (⟨0, none, some [err], []⟩ : ProgramResult)
        | .ok (b, agg) => ⟨0, none, agg, b.calls⟩).calls = []
      rw [hre]

theorem restrictFlags_nsDefault (f : RestrictFlags) :
    (if f.ns = "" then { f with ns := "" } else f) = f := by
  by_cases h : f.ns = ""
  · rw [if_pos h]
    cases f with
    | mk s a n z =>
      simp only at h
      rw [h]
  · rw [if_neg h]

theorem migrateFlags_nsDefault (f : MigrateFlags) :
    (if f.ns = "" then { f with ns := "" } else f) = f := by
  by_cases h : f.ns = ""
  · rw [if_pos h]
    cases f with
    | mk o s n m =>
      simp only at h
      rw [h]
  · rw [if_neg h]

theorem restrictMain_of_error (f : RestrictFlags) (env : RestrictEnv)
    (m : String) (h : restrictNewConfig f env = .error m) :
    restrictMain f env = ⟨255, some m, none, []⟩ := by
  rw [restrictMain, h]

theorem restrictMain_of_ok (f : RestrictFlags) (env : RestrictEnv)
    (cfg : RestrictFlags) (h : restrictNewConfig f env = .ok cfg) :
    (restrictMain f env).fatal = none ∧ (restrictMain f env).exitCode = 0 := by
  rw [restrictMain, h]
  show ((match PatchStorageclassRestricted cfg.action cfg.storageclass
      cfg.size cfg.ns env.applier env.listed with
    | .error err => (⟨0, none, some [err], []⟩ : ProgramResult)
    | .ok (b, agg) => ⟨0, none, agg, b.calls⟩).fatal = none ∧
    (match PatchStorageclassRestricted cfg.action cfg.storageclass
      cfg.size cfg.ns env.applier env.listed with
    | .error err => (⟨0, none, some [err], []⟩ : ProgramResult)
    | .ok (b, agg) => ⟨0, none, agg, b.calls⟩).exitCode = 0)
  cases PatchStorageclassRestricted cfg.action cfg.storageclass cfg.size
      cfg.ns env.applier env.listed with
  | error e => exact ⟨rfl, rfl⟩
  | ok p =>
    obtain ⟨b, agg⟩ := p
    exact ⟨rfl, rfl⟩

theorem migrateMain_of_error (g : MigrateFlags) (genv : MigrateEnv)
    (m : String) (h : migrateNewConfig g genv = .error m) :
    migrateMain g genv = ⟨255, some m, none, []⟩ := by
  rw [migrateMain, h]

theorem validateModeFlags_none_mode (mode o n : String)
    (h : validateModeFlags mode o n = none) :
    mode = "migrate" ∨ mode = "set-zero" := by
  by_cases h1 : mode = "migrate"
  · exact Or.inl h1
  · by_cases h2 : mode = "set-zero"
    · exact Or.inr h2
    · exfalso
      rw [validateModeFlags, if_neg h1, if_neg h2] at h
      exact absurd h (by simp)

theorem migrateNewConfig_ok (g : MigrateFlags) (genv : MigrateEnv)
    (cfg : MigrateFlags) (h : migrateNewConfig g genv = .ok cfg) :
    cfg = g ∧
      validateModeFlags g.mode g.oldStorageclass g.newStorageclass = none := by
  rw [migrateNewConfig, migrateFlags_nsDefault] at h
  cases hv : validateModeFlags g.mode g.oldStorageclass g.newStorageclass with
  | some m =>
    rw [hv] at h
    exact absurd h (by simp)
  | none =>
    rw [hv] at h
    cases hb : genv.buildConfigErr with
    | some e =>
      rw [hb] at h
      exact absurd h (by simp)
    | none =>
      rw [hb] at h
      cases hn : genv.newClientErr with
      | some e =>
        rw [hn] at h
        exact absurd h (by simp)
      | none =>
        rw [hn] at h
        cases hcheck : checkStorageclassesMigrate g.mode g.oldStorageclass
            g.newStorageclass genv.scGet with
        | some m =>
          rw [hcheck] at h
          exact absurd h (by simp)
        | none =>
          rw [hcheck] at h
          injection h with h
          exact ⟨h.symm, rfl⟩

theorem migrateMain_of_ok (g : MigrateFlags) (genv : MigrateEnv)
    (cfg : MigrateFlags) (h : migrateNewConfig g genv = .ok cfg) :
    (migrateMain g genv).fatal = none ∧ (migrateMain g genv).exitCode = 0 := by
  obtain ⟨hcfg, hval⟩ := migrateNewConfig_ok g genv cfg h
  subst hcfg
  rw [migrateMain, h]
  show ((if cfg.mode = "migrate" then
      match MigrateStorageclassQuota cfg.oldStorageclass cfg.newStorageclass
          cfg.ns genv.applier genv.listed with
      | .error err => (⟨0, none, some [err], []⟩ : ProgramResult)
      | .ok (b, agg) => ⟨0, none, agg, b.calls⟩
    else if cfg.mode = "set-zero" then
      match SetStorageclassQuotaToZero cfg.newStorageclass cfg.ns
          genv.applier genv.listed with
      | .error err => (⟨0, none, some [err], []⟩ : ProgramResult)
      | .ok (b, agg) => ⟨0, none, agg, b.calls⟩
    else ⟨255, some ("invalid mode: " ++ cfg.mode), none, []⟩).fatal = none ∧
    (if cfg.mode = "migrate" then
      match MigrateStorageclassQuota cfg.oldStorageclass cfg.newStorageclass
          cfg.ns genv.applier genv.listed with
      | .error err => (⟨0, none, some [err], []⟩ : ProgramResult)
      | .ok (b, agg) => ⟨0, none, agg, b.calls⟩
    else if cfg.mode = "set-zero" then
      match SetStorageclassQuotaToZero cfg.newStorageclass cfg.ns
          genv.applier genv.listed with
      | .error err => (⟨0, none, some [err], []⟩ : ProgramResult)
      | .ok (b, agg) => ⟨0, none, agg, b.calls⟩
    else ⟨255, some ("invalid mode: " ++ cfg.mode), none, []⟩).exitCode = 0)
  rcases validateModeFlags_none_mode _ _ _ hval with hm | hm
  · rw [if_pos hm]
    cases MigrateStorageclassQuota cfg.oldStorageclass cfg.newStorageclass
        cfg.ns genv.applier genv.listed with
    | error e => exact ⟨rfl, rfl⟩
    | ok p =>
      obtain ⟨b, agg⟩ := p
      exact ⟨rfl, rfl⟩
  · have hm1 : cfg.mode ≠ "migrate" := by
      rw [hm]
      decide
    rw [if_neg hm1, if_pos hm]
    cases SetStorageclassQuotaToZero cfg.newStorageclass cfg.ns genv.applier
        genv.listed with
    | error e => exact ⟨rfl, rfl⟩
    | ok p =>
      obtain ⟨b, agg⟩ := p
      exact ⟨rfl, rfl⟩

theorem restrictFlagsMk_nsDefault (s a n z : String) :
    (if n = "" then (⟨s, a, "", z⟩ : RestrictFlags) else ⟨s, a, n, z⟩) =
      ⟨s, a, n, z⟩ := by
  by_cases h : n = ""
  · rw [if_pos h, h]
  · rw [if_neg h]

theorem restrictNewConfig_empty_sc (s a n z : String) (env : RestrictEnv)
    (h : s = "") :
    restrictNewConfig ⟨s, a, n, z⟩ env =
      .error "storageclass is empty,please specify storageclass" := by
  simp only [restrictNewConfig, restrictFlagsMk_nsDefault]
  rw [if_pos h]

theorem restrictNewConfig_parse_error (s a n z e : String) (env : RestrictEnv)
    (hsc : s ≠ "") (hq : env.parseQuantity z = .error e) :
    restrictNewConfig ⟨s, a, n, z⟩ env =
      .error (e ++ " , for example: 50G / 200T") := by
  simp only [restrictNewConfig, restrictFlagsMk_nsDefault]
  rw [if_neg hsc, hq]

theorem restrictNewConfig_sc_not_found (s a n z c : String)
    (env : RestrictEnv) (hsc : s ≠ "") (hq : env.parseQuantity z = .ok c)
    (hact : ¬(a ≠ "add" ∧ a ≠ "remove"))
    (hb : env.buildConfigErr = none) (hn : env.newClientErr = none)
    (hg : env.scGet s = .notFound) :
    restrictNewConfig ⟨s, a, n, z⟩ env =
      .error ("storageclass " ++ s ++ " not exist") := by
  simp only [restrictNewConfig, restrictFlagsMk_nsDefault]
  rw [if_neg hsc, hq]
  simp only []
  rw [if_neg hact, hb, hn, hg]

theorem restrictNewConfig_build_error (s a n z c err : String)
    (env : RestrictEnv) (hsc : s ≠ "") (hq : env.parseQuantity z = .ok c)
    (hact : ¬(a ≠ "add" ∧ a ≠ "remove"))
    (hb : env.buildConfigErr = some err) :
    restrictNewConfig ⟨s, a, n, z⟩ env =
      .error ("error happened when building config," ++ err) := by
  simp only [restrictNewConfig, restrictFlagsMk_nsDefault]
  rw [if_neg hsc, hq]
  simp only []
  rw [if_neg hact, hb]

theorem migrateNewConfig_validate_error (g : MigrateFlags) (genv : MigrateEnv)
    (m : String)
    (hv : validateModeFlags g.mode g.oldStorageclass g.newStorageclass =
      some m) :
    migrateNewConfig g genv = .error m := by
  simp only [migrateNewConfig, migrateFlags_nsDefault]
  rw [hv]

theorem restrictMain_empty_scope (f : RestrictFlags) (env : RestrictEnv)
    (cfg : RestrictFlags) (hok : restrictNewConfig f env = .ok cfg)
    (hl : env.listed = .items []) :
    restrictMain f env =
      ⟨0, none, some ["no ResourceQuota found in namespace/" ++ cfg.ns],
        []⟩ := by
  rw [restrictMain, hok]
  show (match PatchStorageclassRestricted cfg.action cfg.storageclass
      cfg.size cfg.ns env.applier env.listed with
    | .error err => (⟨0, none, some [err], []⟩ : ProgramResult)
    | .ok (b, agg) => ⟨0, none, agg, b.calls⟩) = _
  rw [hl]
  rfl

/-- C7: every fatal precondition failure — missing required flag, invalid
quantity string, flag-validation failure (missing name flags, equal storage-class
names, invalid mode), nonexistent storage class, connect failure, and the
empty scope — is reported exactly once and the process terminates without
attempting any mutation: the klog.Exit paths end with exit code 255, no Patch
calls and no aggregate; the empty-scope path ends right after reporting the
single no-quota error, also without any Patch call. -/
theorem C7_fatal_preconditions_no_mutation
    (s a n z c e err m : String) (env : RestrictEnv)
    (g : MigrateFlags) (genv : MigrateEnv) (cfg : RestrictFlags) :
    (∀ m', (restrictMain ⟨s, a, n, z⟩ env).fatal = some m' →
      restrictMain ⟨s, a, n, z⟩ env = ⟨255, some m', none, []⟩) ∧
    (∀ m', (migrateMain g genv).fatal = some m' →
      migrateMain g genv = ⟨255, some m', none, []⟩) ∧
    (s = "" →
      restrictMain ⟨s, a, n, z⟩ env =
        ⟨255, some "storageclass is empty,please specify storageclass",
          none, []⟩) ∧
    (s ≠ "" → env.parseQuantity z = .error e →
      restrictMain ⟨s, a, n, z⟩ env =
        ⟨255, some (e ++ " , for example: 50G / 200T"), none, []⟩) ∧
    (validateModeFlags g.mode g.oldStorageclass g.newStorageclass = some m →
      migrateMain g genv = ⟨255, some m, none, []⟩) ∧
    (s ≠ "" → env.parseQuantity z = .ok c →
      ¬(a ≠ "add" ∧ a ≠ "remove") →
      env.buildConfigErr = none → env.newClientErr = none →
      env.scGet s = .notFound →
      restrictMain ⟨s, a, n, z⟩ env =
        ⟨255, some ("storageclass " ++ s ++ " not exist"), none, []⟩) ∧
    (s ≠ "" → env.parseQuantity z = .ok c →
      ¬(a ≠ "add" ∧ a ≠ "remove") →
      env.buildConfigErr = some err →
      restrictMain ⟨s, a, n, z⟩ env =
        ⟨255, some ("error happened when building config," ++ err),
          none, []⟩) ∧
    (restrictNewConfig ⟨s, a, n, z⟩ env = .ok cfg →
      env.listed = .items [] →
      restrictMain ⟨s, a, n, z⟩ env =
        ⟨0, none, some ["no ResourceQuota found in namespace/" ++ cfg.ns],
          []⟩) := by
  refine ⟨?_, ?_, ?_, ?_, ?_, ?_, ?_, ?_⟩
  · intro m' hm
    cases hc : restrictNewConfig ⟨s, a, n, z⟩ env with
    | error msg =>
      have hr := restrictMain_of_error _ env msg hc
      rw [hr] at hm
      have hmm : some msg = some m' := hm
      injection hmm with hmm
      rw [hr, hmm]
    | ok cfg' =>
      have hr := (restrictMain_of_ok _ env cfg' hc).1
      rw [hr] at hm
      exact absurd hm (by simp)
  · intro m' hm
    cases hc : migrateNewConfig g genv with
    | error msg =>
      have hr := migrateMain_of_error g genv msg hc
      rw [hr] at hm
      have hmm : some msg = some m' := hm
      injection hmm with hmm
      rw [hr, hmm]
    | ok cfg' =>
      have hr := (migrateMain_of_ok g genv cfg' hc).1
      rw [hr] at hm
      exact absurd hm (by simp)
  · intro h
    exact restrictMain_of_error _ env _ (restrictNewConfig_empty_sc s a n z env h)
  · intro hsc hq
    exact restrictMain_of_error _ env _
      (restrictNewConfig_parse_error s a n z e env hsc hq)
  · intro hv
    exact migrateMain_of_error g genv m (migrateNewConfig_validate_error g genv m hv)
  · intro hsc hq hact hb hn' hg
    exact restrictMain_of_error _ env _
      (restrictNewConfig_sc_not_found s a n z c env hsc hq hact hb hn' hg)
  · intro hsc hq hact hb
    exact restrictMain_of_error _ env _
      (restrictNewConfig_build_error s a n z c err env hsc hq hact hb)
  · intro hok hl
    exact restrictMain_empty_scope _ env cfg hok hl

theorem C7_fatal_preconditions_no_mutation_witness :
    restrictMain ⟨"", "add", "", "0"⟩
        ⟨fun q => .ok q, none, none, fun _ => .found, .items [], noFailApplier⟩ =
      ⟨255, some "storageclass is empty,please specify storageclass",
        none, []⟩ :=
  (C7_fatal_preconditions_no_mutation "" "add" "" "0" "0" "e" "err" "m"
      ⟨fun q => .ok q, none, none, fun _ => .found, .items [], noFailApplier⟩
      ⟨"a", "b", "", "migrate"⟩
      ⟨none, none, fun _ => .found, .items [], noFailApplier⟩
      ⟨"", "add", "", "0"⟩).2.2.1 rfl

/-- C8: every patch document any intent produces maps each storage-class
resource key to at most one value: the single-key documents trivially so, and
the two-key migrate document has distinct keys because migrate mode's flag
validation fatally rejects equal old and new storage-class names before any
batch work starts. -/
theorem C8_no_duplicate_patch_keys (oldSc newSc v sc size : String)
    (hval : validateModeFlags "migrate" oldSc newSc = none) :
    ((patchMigrateTemplate oldSc v newSc).map Prod.fst).Nodup ∧
    ((patchSetZeroTemplate sc).map Prod.fst).Nodup ∧
    ((patchAddTemplate sc size).map Prod.fst).Nodup ∧
    ((patchDeleteTemplate sc).map Prod.fst).Nodup := by
  have hne : oldSc ≠ newSc := by
    rw [validateModeFlags, if_pos rfl] at hval
    by_cases h1 : oldSc = ""
    · rw [if_pos h1] at hval
      exact absurd hval (by simp)
    · rw [if_neg h1] at hval
      by_cases h2 : newSc = ""
      · rw [if_pos h2] at hval
        exact absurd hval (by simp)
      · rw [if_neg h2] at hval
        by_cases h3 : oldSc = newSc
        · rw [if_pos h3] at hval
          exact absurd hval (by simp)
        · exact h3
  refine ⟨?_, ?_, ?_, ?_⟩
  · simp only [patchMigrateTemplate, List.map_cons, List.map_nil,
      List.nodup_cons, List.mem_singleton, List.not_mem_nil,
      not_false_iff, List.nodup_nil, and_true]
    exact fun h => hne (scKey_injective _ _ h)
  · simp [patchSetZeroTemplate]
  · simp [patchAddTemplate]
  · simp [patchDeleteTemplate]

theorem C8_no_duplicate_patch_keys_witness :
    ((patchMigrateTemplate "sc-old" "50G" "sc-new").map Prod.fst).Nodup ∧
    ((patchSetZeroTemplate "sc-z").map Prod.fst).Nodup ∧
    ((patchAddTemplate "sc-z" "50G").map Prod.fst).Nodup ∧
    ((patchDeleteTemplate "sc-z").map Prod.fst).Nodup :=
  C8_no_duplicate_patch_keys "sc-old" "sc-new" "50G" "sc-z" "50G" (by decide)

/-- C9: a run whose startup succeeded always ends through the normal return
path with exit code 0, whether or not per-object patch failures were
aggregated — only the fatal klog.Exit precondition paths produce the distinct
exit code 255. -/
theorem C9_partial_failures_use_normal_exit (f : RestrictFlags)
    (env : RestrictEnv) (g : MigrateFlags) (genv : MigrateEnv) :
    ((restrictMain f env).fatal = none → (restrictMain f env).exitCode = 0) ∧
    ((restrictMain f env).fatal ≠ none →
      (restrictMain f env).exitCode = 255) ∧
    ((migrateMain g genv).fatal = none → (migrateMain g genv).exitCode = 0) ∧
    ((migrateMain g genv).fatal ≠ none →
      (migrateMain g genv).exitCode = 255) := by
  refine ⟨?_, ?_, ?_, ?_⟩
  · intro h
    cases hc : restrictNewConfig f env with
    | error msg =>
      rw [restrictMain_of_error f env msg hc] at h
      exact absurd h (by simp)
    | ok cfg => exact (restrictMain_of_ok f env cfg hc).2
  · intro h
    cases hc : restrictNewConfig f env with
    | error msg => rw [restrictMain_of_error f env msg hc]
    | ok cfg =>
      rw [(restrictMain_of_ok f env cfg hc).1] at h
      exact absurd rfl h
  · intro h
    cases hc : migrateNewConfig g genv with
    | error msg =>
      rw [migrateMain_of_error g genv msg hc] at h
      exact absurd h (by simp)
    | ok cfg => exact (migrateMain_of_ok g genv cfg hc).2
  · intro h
    cases hc : migrateNewConfig g genv with
    | error msg => rw [migrateMain_of_error g genv msg hc]
    | ok cfg =>
      rw [(migrateMain_of_ok g genv cfg hc).1] at h
      exact absurd rfl h

theorem C9_partial_failures_use_normal_exit_witness :
    (restrictMain ⟨"sc-r", "add", "", "0"⟩
      ⟨fun q => .ok q, none, none, fun _ => .found,
        .items [⟨"ns1", "quota1", []⟩],
        fun _ _ => some "boom"⟩).exitCode = 0 :=
  (C9_partial_failures_use_normal_exit ⟨"sc-r", "add", "", "0"⟩
      ⟨fun q => .ok q, none, none, fun _ => .found,
        .items [⟨"ns1", "quota1", []⟩], fun _ _ => some "boom"⟩
      ⟨"a", "b", "", "migrate"⟩
      ⟨none, none, fun _ => .found, .items [], noFailApplier⟩).1 rfl

/-- C10: re-running Migrate on an object whose bare `requests.storage` value
is unchanged (the migrate patch never touches it) issues the identical
two-key patch and yields Applied again: Migrate has no already-migrated skip
case — a Skipped outcome only ever means the generic key was absent — and the
second successful run leaves the object exactly in the state the first run
produced. -/
theorem C10_migrate_rerun_identical (oldSc newSc : String) (applier : Applier)
    (rq : ResourceQuota) (v : String)
    (hap : ∀ q d, applier q d = none)
    (hv : lookupHard rq.hard "requests.storage" = some v)
    (hvne : v ≠ "")
    (hne : oldSc ≠ newSc) :
    (migrateObject oldSc newSc applier rq).outcome = .Applied ∧
    migrateObject oldSc newSc applier (migrateObject oldSc newSc applier rq).rq
      = ⟨.Applied, [], (migrateObject oldSc newSc applier rq).rq,
          (migrateObject oldSc newSc applier rq).calls⟩ ∧
    (∀ (ap : Applier) (rq' : ResourceQuota) (reason : String),
      (migrateObject oldSc newSc ap rq').outcome = .Skipped reason →
      reason = "no existing quota" ∧ getExistingStorageQuota rq' = "") := by
  have hq : getExistingStorageQuota rq = v := by
    rw [getExistingStorageQuota, hv]
  have hstep : migrateObject oldSc newSc applier rq =
      ⟨.Applied, [],
        { rq with
            hard := setKey (setKey rq.hard (scKey oldSc) v) (scKey newSc) "0" },
        [⟨rq.ns, rq.name, "storageclass-migration",
          patchMigrateTemplate oldSc v newSc⟩]⟩ := by
    rw [migrateObject]
    simp only [hq]
    rw [if_neg hvne, hap]
    rfl
  have hbare : lookupHard (migrateObject oldSc newSc applier rq).rq.hard
      "requests.storage" = some v := by
    rw [hstep]
    show lookupHard (setKey (setKey rq.hard (scKey oldSc) v) (scKey newSc) "0")
        "requests.storage" = some v
    rw [lookupHard_setKey_other _ _ _ _ (scKey_ne_bare newSc),
      lookupHard_setKey_other _ _ _ _ (scKey_ne_bare oldSc)]
    exact hv
  have hq1 : getExistingStorageQuota (migrateObject oldSc newSc applier rq).rq
      = v := by
    rw [getExistingStorageQuota, hbare]
  have hkne : scKey newSc ≠ scKey oldSc :=
    fun h => hne (scKey_injective _ _ h).symm
  have hl1 : lookupHard (migrateObject oldSc newSc applier rq).rq.hard
      (scKey oldSc) = some v := by
    rw [hstep]
    show lookupHard (setKey (setKey rq.hard (scKey oldSc) v) (scKey newSc) "0")
        (scKey oldSc) = some v
    rw [lookupHard_setKey_other _ _ _ _ hkne, lookupHard_setKey_self]
  have hl2 : lookupHard (migrateObject oldSc newSc applier rq).rq.hard
      (scKey newSc) = some "0" := by
    rw [hstep]
    show lookupHard (setKey (setKey rq.hard (scKey oldSc) v) (scKey newSc) "0")
        (scKey newSc) = some "0"
    rw [lookupHard_setKey_self]
  have hidem : applyMergePatch (migrateObject oldSc newSc applier rq).rq.hard
      (patchMigrateTemplate oldSc v newSc) =
        (migrateObject oldSc newSc applier rq).rq.hard := by
    show setKey (setKey (migrateObject oldSc newSc applier rq).rq.hard
        (scKey oldSc) v) (scKey newSc) "0" =
      (migrateObject oldSc newSc applier rq).rq.hard
    rw [setKey_of_lookup_eq _ _ _ hl1, setKey_of_lookup_eq _ _ _ hl2]
  refine ⟨by rw [hstep], ?_, ?_⟩
  · rw [migrateObject]
    simp only [hq1]
    rw [if_neg hvne, hap]
    show (⟨.Applied, [],
      { (migrateObject oldSc newSc applier rq).rq with
          hard := applyMergePatch (migrateObject oldSc newSc applier rq).rq.hard
            (patchMigrateTemplate oldSc v newSc) },
      [⟨(migrateObject oldSc newSc applier rq).rq.ns,
        (migrateObject oldSc newSc applier rq).rq.name,
        "storageclass-migration", patchMigrateTemplate oldSc v newSc⟩]⟩
        : StepResult) = _
    rw [hidem, hstep]
  · intro ap rq' reason hsk
    rw [migrateObject] at hsk
    by_cases hq' : getExistingStorageQuota rq' = ""
    · rw [if_pos hq'] at hsk
      have hss : PatchOutcome.Skipped "no existing quota" =
          PatchOutcome.Skipped reason := hsk
      injection hss with hss
      exact ⟨hss.symm, hq'⟩
    · rw [if_neg hq'] at hsk
      exfalso
      simp only [] at hsk
      cases hap' : ap rq'
          (patchMigrateTemplate oldSc (getExistingStorageQuota rq') newSc) with
      | some e =>
        rw [hap'] at hsk
        exact absurd hsk (by simp)
      | none =>
        rw [hap'] at hsk
        exact absurd hsk (by simp)

theorem C10_migrate_rerun_identical_witness :
    (migrateObject "sc-old" "sc-new" noFailApplier
        ⟨"ns1", "quota1", [("requests.storage", "5G")]⟩).outcome =
      .Applied ∧
    migrateObject "sc-old" "sc-new" noFailApplier
        (migrateObject "sc-old" "sc-new" noFailApplier
          ⟨"ns1", "quota1", [("requests.storage", "5G")]⟩).rq =
      ⟨.Applied, [],
        (migrateObject "sc-old" "sc-new" noFailApplier
          ⟨"ns1", "quota1", [("requests.storage", "5G")]⟩).rq,
        (migrateObject "sc-old" "sc-new" noFailApplier
          ⟨"ns1", "quota1", [("requests.storage", "5G")]⟩).calls⟩ ∧
    (∀ (ap : Applier) (rq' : ResourceQuota) (reason : String),
      (migrateObject "sc-old" "sc-new" ap rq').outcome = .Skipped reason →
      reason = "no existing quota" ∧ getExistingStorageQuota rq' = "") :=
  C10_migrate_rerun_identical "sc-old" "sc-new" noFailApplier
    ⟨"ns1", "quota1", [("requests.storage", "5G")]⟩ "5G"
    (fun _ _ => rfl) (by decide) (by decide) (by decide)

end SCRestrict
